import Mathlib

/-!
Verification development for `src/demos/plotly_extras_0_2.py` of the
`alanjones2/px_xtras` repository.

The module is shallowly embedded: Python dictionaries become insertion-ordered
association lists, Python `int` counts become `Nat` (the data model documents
the invariant that all counts are non-negative), Python `float` arithmetic on
exact inputs is modelled with `ℚ`, and code that can raise becomes
`Except PyError`.  `None` arguments are modelled with `Option`.
-/

/-- Errors raised by the Python code: `ValueError msg` for explicit raises and
library errors carrying a message, and `ZeroDivisionError` for divisions or
modulo by zero. -/
inductive PyError where
  | valueError (msg : String)
  | zeroDivisionError
  deriving Repr, DecidableEq

deriving instance DecidableEq for Except

/-- Named-color lookup of `matplotlib.colors.to_rgb` (an external library
dependency), restricted to the color names used in this repository; unknown
names map to black.  Returns the (r, g, b) channels as exact rationals. -/
def to_rgb (c : String) : ℚ × ℚ × ℚ :=
  if c = "lightblue" then (173/255, 216/255, 230/255)
  else if c = "darkblue" then (0, 0, 139/255)
  else if c = "red" then (1, 0, 0)
  else if c = "blue" then (0, 0, 1)
  else if c = "green" then (0, 128/255, 0)
  else (0, 0, 0)

/-- Two-digit lowercase hex rendering of one color channel, as in Python's
`'%02x' % int(v * 255)` (for the non-negative channel values arising here,
`int` truncation is `Int.floor`). -/
def hexByte (q : ℚ) : String :=
  let n : Nat := (Int.floor (q * 255)).toNat
  let s := String.mk (Nat.toDigits 16 n)
  if n < 16 then "0" ++ s else s

/-- Hex color string `'#%02x%02x%02x' % (int(r*255), int(g*255), int(b*255))`. -/
def hexColor (r g b : ℚ) : String :=
  "#" ++ hexByte r ++ hexByte g ++ hexByte b

/-- Embeds `get_color_gradient` (plotly_extras_0_2.py lines 54-72, repeated at
391-409).  The comprehension `[i / (num_colors - 1) for i in range(num_colors)]`
raises `ZeroDivisionError` exactly when `num_colors = 1` (for `num_colors ≤ 0`
the range is empty and no division is evaluated). -/
def get_color_gradient (start_color end_color : String) (num_colors : Nat) :
    Except PyError (List String) :=
  let start_rgb := to_rgb start_color
  let end_rgb := to_rgb end_color
  if num_colors = 1 then .error .zeroDivisionError
  else
    .ok ((List.range num_colors).map (fun (i : Nat) =>
      let t : ℚ := (i : ℚ) / ((num_colors : ℚ) - 1)
      hexColor
        (start_rgb.1 + (end_rgb.1 - start_rgb.1) * t)
        (start_rgb.2.1 + (end_rgb.2.1 - start_rgb.2.1) * t)
        (start_rgb.2.2 + (end_rgb.2.2 - start_rgb.2.2) * t)))

/-- The list `[(i * section_length, (i + 1) * section_length) for i in range(y)]`
with `section_length = x / y`, the successful result of `get_section_bounds`. -/
def sectionList (x : ℚ) (y : Nat) : List (ℚ × ℚ) :=
  (List.range y).map (fun (i : Nat) =>
    ((i : ℚ) * (x / (y : ℚ)), ((i : ℚ) + 1) * (x / (y : ℚ))))

/-- Embeds `get_section_bounds` (lines 75-87, repeated at 412-424).
`section_length = x / y` raises `ZeroDivisionError` when `y = 0`. -/
def get_section_bounds (x : ℚ) (y : Nat) : Except PyError (List (ℚ × ℚ)) :=
  if y = 0 then .error .zeroDivisionError
  else .ok (sectionList x y)

/-- Embeds `find_midpoints` (lines 90-102, repeated at 427-439): the Python
loop runs `i = 1 .. y`, so index `i` here is `j + 1` for `j ∈ range y`.  For
`y = 0` the range is empty and the division by `2*y` is never evaluated, so
the function is total. -/
def find_midpoints (x : ℤ) (y : Nat) : List ℚ :=
  (List.range y).map (fun (j : Nat) =>
    ((2 * ((j : ℚ) + 1) - 1) * (x : ℚ)) / (2 * (y : ℚ)))

/-- Ceiling of the square root, embedding `math.ceil(math.sqrt(total))` for a
natural `total` (exact integer square root replaces the float round-trip). -/
def ceil_sqrt (n : Nat) : Nat :=
  if Nat.sqrt n * Nat.sqrt n = n then Nat.sqrt n else Nat.sqrt n + 1

/-- Fuel-driven worker for `chunkRows`; `fuel ≥ xs.length` makes it total. -/
def chunkRowsAux {α : Type} (fuel w : Nat) (xs : List α) : List (List α) :=
  match fuel with
  | 0 => []
  | fuel + 1 =>
    if w = 0 ∨ xs.length = 0 then []
    else xs.take w :: chunkRowsAux fuel w (xs.drop w)

/-- Row-major reshape into rows of `w` cells, embedding
`np.array(cat).reshape((-1, width))` after its guards have passed. -/
def chunkRows {α : Type} (w : Nat) (xs : List α) : List (List α) :=
  chunkRowsAux xs.length w xs

/-- Embeds the waffle flat category sequence
`cat = [idx for idx, count in enumerate(data.values()) for _ in range(count)]`. -/
def flatCats (d : List (String × Nat)) : List Nat :=
  ((d.map Prod.snd).enum.map (fun p => List.replicate p.2 p.1)).flatten

/-- The flat index sequence built from blocks `replicate count idx`, with
indices starting at `k`; `flatCats d` is `idxBlocks 0 (d.map Prod.snd)`. -/
def idxBlocks (k : Nat) (vals : List Nat) : List Nat :=
  ((List.enumFrom k vals).map (fun p => List.replicate p.2 p.1)).flatten

/-- The components of the figure built by `waffle` that the heat-map trace
receives: `z` (the flipped grid, `none` embedding `np.nan` padding), the
`colorscale` breakpoints, the colorbar `tickvals` and `ticktext`. -/
structure WaffleFigure where
  z : List (List (Option Nat))
  colorscale : List (ℚ × String)
  tickvals : List ℚ
  ticktext : List String
  deriving Repr, DecidableEq

/-- Embeds `waffle` (lines 181-266, repeated at 518-603), on its
data-dictionary path (`df = None`; the DataFrame branch only re-derives the
same dictionary input).  The dictionary is an insertion-ordered list of
(category, count) pairs.  Faithful points: `grid_width or ...` treats `0` as
unsupplied; `math.ceil(total / width)` raises `ZeroDivisionError` when
`width = 0`; `reshape((-1, width))` rejects negative widths and sizes not
divisible by `width`; `get_section_bounds(1, n)` raises when `n = 0`; the
colorscale loop indexes `local_colors[i % len(local_colors)]`, raising
`ZeroDivisionError` on an empty color list when the loop runs. -/
def waffle (data : Option (List (String × Nat))) (local_colors : Option (List String))
    (startcolor endcolor : String) (grid_width : Option ℤ) :
    Except PyError WaffleFigure :=
  match data with
  | none => .error (.valueError "Provide either a DataFrame or a data dictionary.")
  | some d =>
    match (match local_colors with
           | none => get_color_gradient startcolor endcolor d.length
           | some cs => .ok cs) with
    | .error e => .error e
    | .ok colors =>
      let total : Nat := (d.map Prod.snd).sum
      let number_of_values : Nat := d.length
      let cat : List Nat := flatCats d
      let width : ℤ := match grid_width with
        | some w => if w = 0 then (ceil_sqrt total : ℤ) else w
        | none => (ceil_sqrt total : ℤ)
      if width = 0 then .error .zeroDivisionError
      else
        let height : ℤ := Int.ceil ((total : ℚ) / (width : ℚ))
        let padding_length : ℤ := width * height - (cat.length : ℤ)
        let cells : List (Option Nat) :=
          List.replicate padding_length.toNat none ++ cat.map some
        if width < 0 then .error (.valueError "can only specify one unknown dimension")
        else if cells.length % width.toNat = 0 then
          let b := chunkRows width.toNat cells
          match get_section_bounds 1 number_of_values with
          | .error e => .error e
          | .ok ranges =>
            if number_of_values ≠ 0 ∧ colors.length = 0 then .error .zeroDivisionError
            else
              .ok {
                z := b.map List.reverse
                colorscale := ((List.range number_of_values).map (fun i =>
                  [((ranges.getD i (0, 0)).1, colors.getD (i % colors.length) ""),
                   ((ranges.getD i (0, 0)).2, colors.getD (i % colors.length) "")])).flatten
                tickvals := find_midpoints ((number_of_values : ℤ) - 1) number_of_values
                ticktext := d.map Prod.fst }
        else .error (.valueError "cannot reshape array")

/-- The figure `waffle` produces on success when the dictionary `d` and the
color list `cs` are passed explicitly and the supplied `grid_width` is `w`
(so that `width = w`).  Spelled out from the success branch of `waffle`. -/
def waffleFigure (d : List (String × Nat)) (cs : List String) (w : ℤ) : WaffleFigure :=
  let total : Nat := (d.map Prod.snd).sum
  let n : Nat := d.length
  let cat : List Nat := flatCats d
  let height : ℤ := Int.ceil ((total : ℚ) / (w : ℚ))
  let padding_length : ℤ := w * height - (cat.length : ℤ)
  let cells : List (Option Nat) := List.replicate padding_length.toNat none ++ cat.map some
  let ranges : List (ℚ × ℚ) := sectionList 1 n
  { z := (chunkRows w.toNat cells).map List.reverse
    colorscale := ((List.range n).map (fun i =>
      [((ranges.getD i (0, 0)).1, cs.getD (i % cs.length) ""),
       ((ranges.getD i (0, 0)).2, cs.getD (i % cs.length) "")])).flatten
    tickvals := find_midpoints ((n : ℤ) - 1) n
    ticktext := d.map Prod.fst }

/-- The fields of the `go.Waterfall` trace and layout that `waterfall` fills
in: category labels `x`, values `y`, the `measure` list, the four marker /
connector colors, the optional `text` annotations, and the title. -/
structure WaterfallFigure where
  x : List String
  y : List ℚ
  measure : List String
  increasing_color : String
  decreasing_color : String
  totals_color : String
  connector_color : String
  text : Option (List String)
  title : String
  deriving Repr, DecidableEq

/-- Embeds `waterfall` (lines 105-178, repeated at 442-515) on its explicit
list path (`df = None`).  Python's `elif not (labels and data)` raises when
either argument is absent or an empty list; `if color:` treats the empty
string as falsy; `measure` defaults to `['relative']*(len(labels)-1) +
['total']`. -/
def waterfall (labels : Option (List String)) (data : Option (List ℚ)) (title : String)
    ( annotation : Option (List String)) (icolor dcolor tcolor ccolor : String)
    (color : Option String) (measure : Option (List String)) :
    Except PyError WaterfallFigure :=
  match labels, data with
  | some ls, some ds =>
    if ls.length = 0 ∨ ds.length = 0 then
      .error (.valueError "Provide either a DataFrame or labels and data lists.")
    else
      let m := match measure with
        | none => List.replicate (ls.length - 1) "relative" ++ ["total"]
        | some mv => mv
      let c4 : String × String × String × String := match color with
        | some c => if c = "" then (icolor, dcolor, tcolor, ccolor) else (c, c, c, c)
        | none => (icolor, dcolor, tcolor, ccolor)
      .ok { x := ls, y := ds, measure := m,
            increasing_color := c4.1, decreasing_color := c4.2.1,
            totals_color := c4.2.2.1, connector_color := c4.2.2.2,
            text := annotation, title := title }
  | _, _ => .error (.valueError "Provide either a DataFrame or labels and data lists.")

/-- A value plotted on an axis: either a category label or a number (dumbbell
traces mix both axes depending on orientation). -/
inductive Ax where
  | s (v : String)
  | q (v : ℚ)
  deriving Repr, DecidableEq

/-- A `go.Scatter` trace as built by `dumbbell` / `lollipop_chart`: the data
points, the mode, the marker/line color, the optional legend name, and the
`showlegend` flag. -/
structure Trace where
  x : List Ax
  y : List Ax
  mode : String
  color : String
  name : Option String
  showlegend : Bool
  deriving Repr, DecidableEq

/-- The traces and axis titles of the dumbbell figure (annotations and sizing
parameters are plumbing not referenced by any claim and are projected away). -/
structure DumbbellFigure where
  traces : List Trace
  xaxis_title : String
  yaxis_title : String
  deriving Repr, DecidableEq

/-- Python truthiness of an optional string (`None` and `''` are falsy). -/
def truthy (s : Option String) : Bool :=
  match s with
  | none => false
  | some t => t ≠ ""

/-- Embeds `dumbbell` (final definition, lines 606-713) on its explicit list
path (`df = None`).  `elif not (categories and values1 and values2)` raises
the provide-data error when any list is absent or empty; the length check
raises the mismatch error; then one line trace per category is added,
followed by the two marker traces.  The Python function returns a figure, so
the result is `some` figure (the truncated first copy, `dumbbell_first`,
returns `none`). -/
def dumbbell (categories : Option (List String)) (values1 values2 : Option (List ℚ))
    (label1 label2 : Option String) (orientation : String)
    (marker_color1 marker_color2 line_color : String) :
    Except PyError (Option DumbbellFigure) :=
  match categories, values1, values2 with
  | some cs, some v1, some v2 =>
    if cs.length = 0 ∨ v1.length = 0 ∨ v2.length = 0 then
      .error (.valueError "Provide either a DataFrame or all three lists: categories, values1, and values2.")
    else if ¬(cs.length = v1.length ∧ v1.length = v2.length) then
      .error (.valueError "All input lists must have the same length.")
    else
      let showlegend := truthy label1 && truthy label2
      let xy1 : List Ax × List Ax :=
        if orientation = "h" then (v1.map Ax.q, cs.map Ax.s) else (cs.map Ax.s, v1.map Ax.q)
      let xy2 : List Ax × List Ax :=
        if orientation = "h" then (v2.map Ax.q, cs.map Ax.s) else (cs.map Ax.s, v2.map Ax.q)
      let lineTraces := (cs.zip (v1.zip v2)).map (fun p =>
        let lxy : List Ax × List Ax :=
          if orientation = "h" then ([Ax.q p.2.1, Ax.q p.2.2], [Ax.s p.1, Ax.s p.1])
          else ([Ax.s p.1, Ax.s p.1], [Ax.q p.2.1, Ax.q p.2.2])
        { x := lxy.1, y := lxy.2, mode := "lines", color := line_color,
          name := none, showlegend := false })
      .ok (some {
        traces := lineTraces ++
          [{ x := xy1.1, y := xy1.2, mode := "markers", color := marker_color1,
             name := label1, showlegend := showlegend },
           { x := xy2.1, y := xy2.2, mode := "markers", color := marker_color2,
             name := label2, showlegend := showlegend }]
        xaxis_title := if orientation = "h" then "Value" else "Category"
        yaxis_title := if orientation = "h" then "Category" else "Value" })
  | _, _, _ =>
    .error (.valueError "Provide either a DataFrame or all three lists: categories, values1, and values2.")

/-- Embeds `line_range` (lines 716-758, repeated at 805-847): both marker
colors and the marker size are overwritten with the line styling, the labels
are set to `None`, and the call is delegated to `dumbbell`. -/
def line_range (categories : Option (List String)) (values1 values2 : Option (List ℚ))
    (orientation : String) (line_color : String) :
    Except PyError (Option DumbbellFigure) :=
  let marker_color1 := line_color
  let marker_color2 := line_color
  dumbbell categories values1 values2 none none orientation marker_color1 marker_color2 line_color

/-- The traces of the lollipop figure. -/
structure LollipopFigure where
  traces : List Trace
  deriving Repr, DecidableEq

/-- Embeds `lollipop_chart` (lines 760-801, repeated at 849-890): a stick
trace from 0 to each value, then one marker trace named `'Value'`. -/
def lollipop_chart (categories : List String) (values : List ℚ)
    (stick_color marker_color : String) : Except PyError LollipopFigure :=
  if categories.length ≠ values.length then
    .error (.valueError "Length of categories and values must match.")
  else
    .ok { traces := (categories.zip values).map (fun p =>
            { x := [Ax.s p.1, Ax.s p.1], y := [Ax.q 0, Ax.q p.2], mode := "lines",
              color := stick_color, name := none, showlegend := false }) ++
          [{ x := categories.map Ax.s, y := values.map Ax.q, mode := "markers",
             color := marker_color, name := some "Value", showlegend := true }] }

/-- Embeds the FIRST definition of `get_color_gradient` (lines 54-72).  The
module source is pasted twice: lines 1-337 are a verbatim prefix of the copy
starting at line 338, so this body is textually identical to
`get_color_gradient`. -/
def get_color_gradient_first (start_color end_color : String) (num_colors : Nat) :
    Except PyError (List String) :=
  let start_rgb := to_rgb start_color
  let end_rgb := to_rgb end_color
  if num_colors = 1 then .error .zeroDivisionError
  else
    .ok ((List.range num_colors).map (fun (i : Nat) =>
      let t : ℚ := (i : ℚ) / ((num_colors : ℚ) - 1)
      hexColor
        (start_rgb.1 + (end_rgb.1 - start_rgb.1) * t)
        (start_rgb.2.1 + (end_rgb.2.1 - start_rgb.2.1) * t)
        (start_rgb.2.2 + (end_rgb.2.2 - start_rgb.2.2) * t)))

/-- Embeds the FIRST definition of `get_section_bounds` (lines 75-87),
textually identical to the one at 412-424. -/
def get_section_bounds_first (x : ℚ) (y : Nat) : Except PyError (List (ℚ × ℚ)) :=
  if y = 0 then .error .zeroDivisionError
  else .ok (sectionList x y)

/-- Embeds the FIRST definition of `find_midpoints` (lines 90-102),
textually identical to the one at 427-439. -/
def find_midpoints_first (x : ℤ) (y : Nat) : List ℚ :=
  (List.range y).map (fun (j : Nat) =>
    ((2 * ((j : ℚ) + 1) - 1) * (x : ℚ)) / (2 * (y : ℚ)))

/-- Embeds the FIRST definition of `waterfall` (lines 105-178), textually
identical to the one at 442-515. -/
def waterfall_first (labels : Option (List String)) (data : Option (List ℚ)) (title : String)
    ( annotation : Option (List String)) (icolor dcolor tcolor ccolor : String)
    (color : Option String) (measure : Option (List String)) :
    Except PyError WaterfallFigure :=
  match labels, data with
  | some ls, some ds =>
    if ls.length = 0 ∨ ds.length = 0 then
      .error (.valueError "Provide either a DataFrame or labels and data lists.")
    else
      let m := match measure with
        | none => List.replicate (ls.length - 1) "relative" ++ ["total"]
        | some mv => mv
      let c4 : String × String × String × String := match color with
        | some c => if c = "" then (icolor, dcolor, tcolor, ccolor) else (c, c, c, c)
        | none => (icolor, dcolor, tcolor, ccolor)
      .ok { x := ls, y := ds, measure := m,
            increasing_color := c4.1, decreasing_color := c4.2.1,
            totals_color := c4.2.2.1, connector_color := c4.2.2.2,
            text := annotation, title := title }
  | _, _ => .error (.valueError "Provide either a DataFrame or labels and data lists.")

/-- Embeds the FIRST definition of `waffle` (lines 181-266), textually
identical to the one at 518-603.  (Its free references to the helper
functions resolve, at any call made after the module finishes loading, to the
final definitions of those helpers, which are themselves textually identical
to the first ones.) -/
def waffle_first (data : Option (List (String × Nat))) (local_colors : Option (List String))
    (startcolor endcolor : String) (grid_width : Option ℤ) :
    Except PyError WaffleFigure :=
  match data with
  | none => .error (.valueError "Provide either a DataFrame or a data dictionary.")
  | some d =>
    match (match local_colors with
           | none => get_color_gradient startcolor endcolor d.length
           | some cs => .ok cs) with
    | .error e => .error e
    | .ok colors =>
      let total : Nat := (d.map Prod.snd).sum
      let number_of_values : Nat := d.length
      let cat : List Nat := flatCats d
      let width : ℤ := match grid_width with
        | some w => if w = 0 then (ceil_sqrt total : ℤ) else w
        | none => (ceil_sqrt total : ℤ)
      if width = 0 then .error .zeroDivisionError
      else
        let height : ℤ := Int.ceil ((total : ℚ) / (width : ℚ))
        let padding_length : ℤ := width * height - (cat.length : ℤ)
        let cells : List (Option Nat) :=
          List.replicate padding_length.toNat none ++ cat.map some
        if width < 0 then .error (.valueError "can only specify one unknown dimension")
        else if cells.length % width.toNat = 0 then
          let b := chunkRows width.toNat cells
          match get_section_bounds 1 number_of_values with
          | .error e => .error e
          | .ok ranges =>
            if number_of_values ≠ 0 ∧ colors.length = 0 then .error .zeroDivisionError
            else
              .ok {
                z := b.map List.reverse
                colorscale := ((List.range number_of_values).map (fun i =>
                  [((ranges.getD i (0, 0)).1, colors.getD (i % colors.length) ""),
                   ((ranges.getD i (0, 0)).2, colors.getD (i % colors.length) "")])).flatten
                tickvals := find_midpoints ((number_of_values : ℤ) - 1) number_of_values
                ticktext := d.map Prod.fst }
        else .error (.valueError "cannot reshape array")

/-- Embeds the FIRST definition of `dumbbell` (lines 269-336).  This copy is
TRUNCATED: the second paste of the module begins at line 337, cutting the
body off right after the marker-coordinate assignments
`x_markers2, y_markers2 = ...` (line 336), so the function performs both
validations, computes `showlegend` and the marker coordinate pairs, adds no
traces, and falls off the end — returning Python `None`. -/
def dumbbell_first (categories : Option (List String)) (values1 values2 : Option (List ℚ))
    (label1 label2 : Option String) (orientation : String)
    (marker_color1 marker_color2 line_color : String) :
    Except PyError (Option DumbbellFigure) :=
  match categories, values1, values2 with
  | some cs, some v1, some v2 =>
    if cs.length = 0 ∨ v1.length = 0 ∨ v2.length = 0 then
      .error (.valueError "Provide either a DataFrame or all three lists: categories, values1, and values2.")
    else if ¬(cs.length = v1.length ∧ v1.length = v2.length) then
      .error (.valueError "All input lists must have the same length.")
    else
      let _showlegend := truthy label1 && truthy label2
      let _xy1 : List Ax × List Ax :=
        if orientation = "h" then (v1.map Ax.q, cs.map Ax.s) else (cs.map Ax.s, v1.map Ax.q)
      let _xy2 : List Ax × List Ax :=
        if orientation = "h" then (v2.map Ax.q, cs.map Ax.s) else (cs.map Ax.s, v2.map Ax.q)
      .ok none
  | _, _, _ =>
    .error (.valueError "Provide either a DataFrame or all three lists: categories, values1, and values2.")

/-- Embeds the FIRST definition of `line_range` (lines 716-758), textually
identical to the one at 805-847 (both resolve `dumbbell` to the final,
complete definition at call time). -/
def line_range_first (categories : Option (List String)) (values1 values2 : Option (List ℚ))
    (orientation : String) (line_color : String) :
    Except PyError (Option DumbbellFigure) :=
  let marker_color1 := line_color
  let marker_color2 := line_color
  dumbbell categories values1 values2 none none orientation marker_color1 marker_color2 line_color

/-- Embeds the FIRST definition of `lollipop_chart` (lines 760-801),
textually identical to the one at 849-890. -/
def lollipop_chart_first (categories : List String) (values : List ℚ)
    (stick_color marker_color : String) : Except PyError LollipopFigure :=
  if categories.length ≠ values.length then
    .error (.valueError "Length of categories and values must match.")
  else
    .ok { traces := (categories.zip values).map (fun p =>
            { x := [Ax.s p.1, Ax.s p.1], y := [Ax.q 0, Ax.q p.2], mode := "lines",
              color := stick_color, name := none, showlegend := false }) ++
          [{ x := categories.map Ax.s, y := values.map Ax.q, mode := "markers",
             color := marker_color, name := some "Value", showlegend := true }] }

/-! ### Helper lemmas about the grid pipeline -/

theorem chunkRowsAux_flatten {α : Type} (w : Nat) (hw : w ≠ 0) :
    ∀ (fuel : Nat) (xs : List α), xs.length ≤ fuel → (chunkRowsAux fuel w xs).flatten = xs := by
  intro fuel
  induction fuel with
  | zero =>
    intro xs hx
    have : xs = [] := List.length_eq_zero.mp (Nat.le_zero.mp hx)
    simp [chunkRowsAux, this]
  | succ fuel ih =>
    intro xs hx
    rw [chunkRowsAux]
    by_cases h : w = 0 ∨ xs.length = 0
    · rcases h with h | h
      · exact absurd h hw
      · simp [h, List.length_eq_zero.mp h]
    · push_neg at h
      rw [if_neg (by simp [h.1, h.2])]
      rw [List.flatten_cons, ih (xs.drop w) ?_, List.take_append_drop]
      have hpos : 0 < w := Nat.pos_of_ne_zero h.1
      simp only [List.length_drop]
      omega

theorem chunkRows_flatten {α : Type} (w : Nat) (hw : w ≠ 0) (xs : List α) :
    (chunkRows w xs).flatten = xs :=
  chunkRowsAux_flatten w hw xs.length xs le_rfl

theorem flatten_map_reverse_perm {α : Type} (L : List (List α)) :
    ((L.map List.reverse).flatten).Perm L.flatten := by
  induction L with
  | nil => rfl
  | cons a L ih =>
    simp only [List.map_cons, List.flatten_cons]
    exact (a.reverse_perm).append ih

theorem flatCats_eq_idxBlocks (d : List (String × Nat)) :
    flatCats d = idxBlocks 0 (d.map Prod.snd) := rfl

theorem idxBlocks_length (vals : List Nat) : ∀ (k : Nat), (idxBlocks k vals).length = vals.sum := by
  induction vals with
  | nil => intro k; simp [idxBlocks]
  | cons v vs ih =>
    intro k
    simp only [idxBlocks, List.enumFrom_cons, List.map_cons, List.flatten_cons,
      List.length_append, List.length_replicate, List.sum_cons]
    rw [show ((List.enumFrom (k + 1) vs).map (fun p => List.replicate p.2 p.1)).flatten.length
          = (idxBlocks (k + 1) vs).length from rfl, ih]

theorem idxBlocks_count_lt (vals : List Nat) :
    ∀ (k j : Nat), j < k → (idxBlocks k vals).count j = 0 := by
  induction vals with
  | nil => intro k j _; simp [idxBlocks]
  | cons v vs ih =>
    intro k j hj
    have hconv : ((List.enumFrom (k + 1) vs).map (fun p => List.replicate p.2 p.1)).flatten
        = idxBlocks (k + 1) vs := rfl
    simp only [idxBlocks, List.enumFrom_cons, List.map_cons, List.flatten_cons, List.count_append]
    rw [hconv, ih (k + 1) j (by omega), List.count_replicate]
    simp only [beq_iff_eq]
    split <;> omega

theorem idxBlocks_count (vals : List Nat) :
    ∀ (k i : Nat) (hi : i < vals.length), (idxBlocks k vals).count (k + i) = vals.get ⟨i, hi⟩ := by
  induction vals with
  | nil => intro k i hi; simp at hi
  | cons v vs ih =>
    intro k i hi
    have hconv : ((List.enumFrom (k + 1) vs).map (fun p => List.replicate p.2 p.1)).flatten
        = idxBlocks (k + 1) vs := rfl
    simp only [idxBlocks, List.enumFrom_cons, List.map_cons, List.flatten_cons, List.count_append]
    rw [hconv]
    cases i with
    | zero =>
      rw [idxBlocks_count_lt vs (k + 1) (k + 0) (by omega), List.count_replicate]
      simp only [beq_iff_eq]
      rw [if_pos (by omega)]
      simp
    | succ i =>
      have hi' : i < vs.length := by simpa using hi
      rw [show k + (i + 1) = (k + 1) + i from by omega, ih (k + 1) i hi', List.count_replicate]
      simp only [beq_iff_eq]
      rw [if_neg (by omega)]
      simp

theorem idxBlocks_mem (vals : List Nat) :
    ∀ (k a : Nat), a ∈ idxBlocks k vals → k ≤ a ∧ a < k + vals.length := by
  induction vals with
  | nil => intro k a ha; simp [idxBlocks] at ha
  | cons v vs ih =>
    intro k a ha
    simp only [idxBlocks, List.enumFrom_cons, List.map_cons, List.flatten_cons,
      List.mem_append] at ha
    rcases ha with ha | ha
    · have := List.eq_of_mem_replicate ha
      subst this
      simp only [List.length_cons]
      omega
    · have := ih (k + 1) a ha
      simp only [List.length_cons]
      omega

theorem chain_replicate_le (n a : Nat) : List.Chain' (· ≤ ·) (List.replicate n a) :=
  List.chain'_replicate_of_rel n le_rfl

theorem idxBlocks_chain (vals : List Nat) :
    ∀ (k : Nat), List.Chain' (· ≤ ·) (idxBlocks k vals) := by
  induction vals with
  | nil => intro k; simp [idxBlocks]
  | cons v vs ih =>
    intro k
    simp only [idxBlocks, List.enumFrom_cons, List.map_cons, List.flatten_cons]
    apply List.Chain'.append (chain_replicate_le v k) (ih (k + 1))
    intro x hx y hy
    have hxv : x = k := List.eq_of_mem_replicate (List.mem_of_mem_getLast? hx)
    have hyv : k + 1 ≤ y :=
      (idxBlocks_mem vs (k + 1) y (List.mem_of_mem_head? hy)).1
    omega

/-! ### Success and inversion lemmas for `waffle` -/

theorem le_mul_ceil_div (T : Nat) (w : ℤ) (hw : 1 ≤ w) :
    (T : ℤ) ≤ w * Int.ceil ((T : ℚ) / (w : ℚ)) := by
  have hq : (0 : ℚ) < (w : ℚ) := by exact_mod_cast (by omega : (0 : ℤ) < w)
  have h1 : (T : ℚ) / (w : ℚ) ≤ (Int.ceil ((T : ℚ) / (w : ℚ)) : ℚ) := Int.le_ceil _
  have h2 : (T : ℚ) ≤ (Int.ceil ((T : ℚ) / (w : ℚ)) : ℚ) * (w : ℚ) := (div_le_iff₀ hq).mp h1
  rw [mul_comm] at h2
  exact_mod_cast h2

theorem waffle_ok_spec (d : List (String × Nat)) (cs : List String) (sc ec : String) (w : ℤ)
    (hw : 1 ≤ w) (hcs : cs ≠ []) (hd : d ≠ []) :
    waffle (some d) (some cs) sc ec (some w) = .ok (waffleFigure d cs w) := by
  have hw0 : ¬(w = 0) := by omega
  have hwneg : ¬(w < 0) := by omega
  have hn : ¬(d.length = 0) := by simpa [List.length_eq_zero] using hd
  have hcsl : ¬(cs.length = 0) := by simpa [List.length_eq_zero] using hcs
  have hlen : (flatCats d).length = (d.map Prod.snd).sum := by
    rw [flatCats_eq_idxBlocks, idxBlocks_length]
  have hdvd : ∀ (m : ℤ), ((d.map Prod.snd).sum : ℤ) ≤ m → w ∣ m →
      ((m - ((flatCats d).length : ℤ)).toNat + (flatCats d).length) % w.toNat = 0 := by
    intro m hm hdv
    have h1 : (m - ((flatCats d).length : ℤ)).toNat + (flatCats d).length = m.toNat := by
      rw [hlen]; omega
    rw [h1]
    have h2 : (w.toNat : ℤ) = w := Int.toNat_of_nonneg (by omega)
    have h3 : (m.toNat : ℤ) = m := Int.toNat_of_nonneg (by omega)
    have h4 : w.toNat ∣ m.toNat := by
      rw [← Int.natCast_dvd_natCast, h2, h3]; exact hdv
    omega
  have hceil := le_mul_ceil_div ((d.map Prod.snd).sum) w hw
  simp only [waffle, waffleFigure, get_section_bounds, hw0, hn, hcsl, if_false, ite_false]
  have hc : (List.replicate (w * Int.ceil (((d.map Prod.snd).sum : ℚ) / (w : ℚ))
        - ((flatCats d).length : ℤ)).toNat none ++ List.map some (flatCats d)).length % w.toNat = 0 := by
    simp only [List.length_append, List.length_replicate, List.length_map]
    exact hdvd _ hceil (dvd_mul_right w _)
  rw [if_neg hwneg, if_pos hc]
  simp

theorem waffle_ok_inv (d : List (String × Nat)) (cs : List String) (sc ec : String) (w : ℤ)
    (fig : WaffleFigure) (hw : 1 ≤ w)
    (hok : waffle (some d) (some cs) sc ec (some w) = .ok fig) :
    d ≠ [] ∧ cs ≠ [] ∧ fig = waffleFigure d cs w := by
  have hw0 : ¬(w = 0) := by omega
  have hwneg : ¬(w < 0) := by omega
  have hd : d ≠ [] := by
    rintro rfl
    simp [waffle, get_section_bounds, flatCats, hw0, hwneg] at hok
  have hn : ¬(d.length = 0) := by simpa [List.length_eq_zero] using hd
  by_cases hcs : cs = []
  · exfalso
    subst hcs
    have hlen : (flatCats d).length = (d.map Prod.snd).sum := by
      rw [flatCats_eq_idxBlocks, idxBlocks_length]
    have hdvd : ∀ (m : ℤ), ((d.map Prod.snd).sum : ℤ) ≤ m → w ∣ m →
        ((m - ((flatCats d).length : ℤ)).toNat + (flatCats d).length) % w.toNat = 0 := by
      intro m hm hdv
      have h1 : (m - ((flatCats d).length : ℤ)).toNat + (flatCats d).length = m.toNat := by
        rw [hlen]; omega
      rw [h1]
      have h2 : (w.toNat : ℤ) = w := Int.toNat_of_nonneg (by omega)
      have h3 : (m.toNat : ℤ) = m := Int.toNat_of_nonneg (by omega)
      have h4 : w.toNat ∣ m.toNat := by
        rw [← Int.natCast_dvd_natCast, h2, h3]; exact hdv
      omega
    have hceil := le_mul_ceil_div ((d.map Prod.snd).sum) w hw
    have hc : (List.replicate (w * Int.ceil (((d.map Prod.snd).sum : ℚ) / (w : ℚ))
          - ((flatCats d).length : ℤ)).toNat none ++ List.map some (flatCats d)).length % w.toNat = 0 := by
      simp only [List.length_append, List.length_replicate, List.length_map]
      exact hdvd _ hceil (dvd_mul_right w _)
    simp only [waffle, get_section_bounds, hw0, hn, if_false, ite_false] at hok
    rw [if_neg hwneg, if_pos hc] at hok
    simp [hn] at hok
  · have hspec := waffle_ok_spec d cs sc ec w hw hcs hd
    rw [hok] at hspec
    exact ⟨hd, hcs, Except.ok.inj hspec⟩

/-! ### Grid-layout claims (C1, C2) -/

theorem waffleFigure_z (d : List (String × Nat)) (cs : List String) (w : ℤ) :
    (waffleFigure d cs w).z = (chunkRows w.toNat
      (List.replicate ((w * Int.ceil (((d.map Prod.snd).sum : ℚ) / (w : ℚ))
          - ((flatCats d).length : ℤ)).toNat) none ++ (flatCats d).map some)).map List.reverse := rfl

theorem flatCats_length (d : List (String × Nat)) :
    (flatCats d).length = (d.map Prod.snd).sum := by
  rw [flatCats_eq_idxBlocks, idxBlocks_length]

theorem waffleFigure_z_flatten_perm (d : List (String × Nat)) (cs : List String) (w : ℤ)
    (hw : 1 ≤ w) :
    (waffleFigure d cs w).z.flatten.Perm
      (List.replicate ((w * Int.ceil (((d.map Prod.snd).sum : ℚ) / (w : ℚ))
          - ((flatCats d).length : ℤ)).toNat) none ++ (flatCats d).map some) := by
  rw [waffleFigure_z]
  exact (flatten_map_reverse_perm _).trans
    (by rw [chunkRows_flatten w.toNat (by omega)])

theorem perm_count {α : Type} [BEq α] {l₁ l₂ : List α} (h : l₁.Perm l₂) (a : α) :
    l₁.count a = l₂.count a :=
  h.countP_eq _

theorem count_map_some (l : List Nat) (i : Nat) :
    (l.map some).count (some i) = l.count i := by
  show List.countP _ _ = List.countP _ _
  rw [List.countP_map]
  rfl

/-- C1: for a category-count mapping passed with an explicit grid width `w ≥ 1`
and explicit colors, a successful waffle call builds the grid by padding the
flat category sequence in front, reshaping row-major into rows of `w`, and
mirroring each row; the grid has `(w * ceil(T/w))` cells, `T` of them category
cells and the rest padding. -/
theorem C1_waffle_grid_construction (d : List (String × Nat)) (cs : List String)
    (sc ec : String) (w : ℤ) (fig : WaffleFigure) (hw : 1 ≤ w)
    (hok : waffle (some d) (some cs) sc ec (some w) = .ok fig) :
    fig.z = (chunkRows w.toNat
        (List.replicate ((w * Int.ceil (((d.map Prod.snd).sum : ℚ) / (w : ℚ))).toNat
            - (d.map Prod.snd).sum) none ++ (flatCats d).map some)).map List.reverse
      ∧ fig.z.flatten.length = (w * Int.ceil (((d.map Prod.snd).sum : ℚ) / (w : ℚ))).toNat
      ∧ fig.z.flatten.countP (fun c => c.isSome) = (d.map Prod.snd).sum
      ∧ fig.z.flatten.count none
          = (w * Int.ceil (((d.map Prod.snd).sum : ℚ) / (w : ℚ))).toNat - (d.map Prod.snd).sum := by
  obtain ⟨hd, hcs, hfig⟩ := waffle_ok_inv d cs sc ec w fig hw hok
  subst hfig
  have hceil := le_mul_ceil_div ((d.map Prod.snd).sum) w hw
  have hlen := flatCats_length d
  have hpad : ((w * Int.ceil (((d.map Prod.snd).sum : ℚ) / (w : ℚ))
      - ((flatCats d).length : ℤ)).toNat)
      = (w * Int.ceil (((d.map Prod.snd).sum : ℚ) / (w : ℚ))).toNat - (d.map Prod.snd).sum := by
    rw [hlen]; omega
  have hperm := waffleFigure_z_flatten_perm d cs w hw
  refine ⟨?_, ?_, ?_, ?_⟩
  · rw [waffleFigure_z, hpad]
  · rw [hperm.length_eq]
    simp only [List.length_append, List.length_replicate, List.length_map, hlen, hpad]
    omega
  · rw [hperm.countP_eq, List.countP_append]
    have h1 : (List.replicate ((w * Int.ceil (((d.map Prod.snd).sum : ℚ) / (w : ℚ))
        - ((flatCats d).length : ℤ)).toNat) (none : Option Nat)).countP (fun c => c.isSome) = 0 := by
      apply List.countP_eq_zero.mpr
      intro a ha
      rw [List.eq_of_mem_replicate ha]
      simp
    rw [h1, List.countP_map]
    have h2 : ((fun (c : Option Nat) => c.isSome) ∘ some) = fun _ => true := rfl
    rw [h2, List.countP_true, hlen]
    omega
  · rw [perm_count hperm, List.count_append, List.count_replicate]
    have h3 : (List.map some (flatCats d)).count (none : Option Nat) = 0 := by
      apply List.count_eq_zero.mpr
      simp
    rw [h3]
    simp only [beq_self_eq_true, if_true, Nat.add_zero]
    rw [hpad]

/-- C2: every category receives exactly its own count of grid cells, every
populated cell carries one in-range category index, and the flat populated
sequence (grid un-mirrored, flattened, padding dropped) is sorted in
insertion order of the mapping. -/
theorem C2_waffle_category_tiles (d : List (String × Nat)) (cs : List String)
    (sc ec : String) (w : ℤ) (fig : WaffleFigure) (hw : 1 ≤ w)
    (hok : waffle (some d) (some cs) sc ec (some w) = .ok fig) :
    (∀ i, i < d.length → fig.z.flatten.count (some i) = (d.map Prod.snd).getD i 0)
      ∧ (∀ c ∈ fig.z.flatten, c = none ∨ ∃ i, c = some i ∧ i < d.length)
      ∧ List.Chain' (· ≤ ·) ((fig.z.map List.reverse).flatten.filterMap id) := by
  obtain ⟨hd, hcs, hfig⟩ := waffle_ok_inv d cs sc ec w fig hw hok
  subst hfig
  have hperm := waffleFigure_z_flatten_perm d cs w hw
  refine ⟨?_, ?_, ?_⟩
  · intro i hi
    have hi' : i < (d.map Prod.snd).length := by simpa using hi
    rw [perm_count hperm, List.count_append, List.count_replicate]
    have h1 : (List.map some (flatCats d)).count (some i) = (flatCats d).count i :=
      count_map_some _ i
    have h2 : (flatCats d).count i = (d.map Prod.snd).get ⟨i, hi'⟩ := by
      rw [flatCats_eq_idxBlocks]
      have := idxBlocks_count (d.map Prod.snd) 0 i hi'
      simpa using this
    rw [h1, h2, List.getD_eq_get _ _ hi']
    simp
  · intro c hc
    rw [hperm.mem_iff, List.mem_append] at hc
    rcases hc with hc | hc
    · exact Or.inl (List.eq_of_mem_replicate hc)
    · right
      obtain ⟨a, ha, rfl⟩ := List.mem_map.mp hc
      refine ⟨a, rfl, ?_⟩
      have := (idxBlocks_mem (d.map Prod.snd) 0 a (by rwa [flatCats_eq_idxBlocks] at ha)).2
      simpa using this
  · have hz2 : (waffleFigure d cs w).z.map List.reverse
        = chunkRows w.toNat
          (List.replicate ((w * Int.ceil (((d.map Prod.snd).sum : ℚ) / (w : ℚ))
              - ((flatCats d).length : ℤ)).toNat) none ++ (flatCats d).map some) := by
      rw [waffleFigure_z, List.map_map]
      simp [List.reverse_reverse]
    rw [hz2, chunkRows_flatten w.toNat (by omega), List.filterMap_append]
    have h4 : (List.replicate ((w * Int.ceil (((d.map Prod.snd).sum : ℚ) / (w : ℚ))
        - ((flatCats d).length : ℤ)).toNat) (none : Option Nat)).filterMap id = [] := by
      apply List.filterMap_eq_nil_iff.mpr
      intro a ha
      rw [List.eq_of_mem_replicate ha]
      rfl
    have h5 : ((flatCats d).map some).filterMap id = flatCats d := by
      rw [List.filterMap_map]
      simp
    rw [h4, h5, List.nil_append, flatCats_eq_idxBlocks]
    exact idxBlocks_chain (d.map Prod.snd) 0

/-- Witness for C1 at `counts = {"A": 1, "B": 3}`, `w = 2`. -/
theorem C1_waffle_grid_construction_witness :
    waffle (some [("A", 1), ("B", 3)]) (some ["r", "g"]) "lightblue" "darkblue" (some 2)
      = .ok { z := [[some 1, some 0], [some 1, some 1]],
              colorscale := [(0, "r"), (1/2, "r"), (1/2, "g"), (1, "g")],
              tickvals := [1/4, 3/4], ticktext := ["A", "B"] }
    ∧ ([[some 1, some 0], [some 1, some 1]] : List (List (Option Nat))).flatten.countP
        (fun c => c.isSome) = 4 := by
  have hok : waffle (some [("A", 1), ("B", 3)]) (some ["r", "g"]) "lightblue" "darkblue" (some 2)
      = .ok { z := [[some 1, some 0], [some 1, some 1]],
              colorscale := [(0, "r"), (1/2, "r"), (1/2, "g"), (1, "g")],
              tickvals := [1/4, 3/4], ticktext := ["A", "B"] } := by
    with_unfolding_all decide
  refine ⟨hok, ?_⟩
  have h := C1_waffle_grid_construction [("A", 1), ("B", 3)] ["r", "g"]
    "lightblue" "darkblue" 2 _ (by decide) hok
  exact h.2.2.1.trans (by decide)

/-- Witness for C2 at `counts = {"A": 1, "B": 3}`, `w = 2`, category `B`. -/
theorem C2_waffle_category_tiles_witness :
    waffle (some [("A", 1), ("B", 3)]) (some ["b", "y"]) "lightblue" "darkblue" (some 2)
      = .ok { z := [[some 1, some 0], [some 1, some 1]],
              colorscale := [(0, "b"), (1/2, "b"), (1/2, "y"), (1, "y")],
              tickvals := [1/4, 3/4], ticktext := ["A", "B"] }
    ∧ ([[some 1, some 0], [some 1, some 1]] : List (List (Option Nat))).flatten.count
        (some 1) = 3 := by
  have hok : waffle (some [("A", 1), ("B", 3)]) (some ["b", "y"]) "lightblue" "darkblue" (some 2)
      = .ok { z := [[some 1, some 0], [some 1, some 1]],
              colorscale := [(0, "b"), (1/2, "b"), (1/2, "y"), (1, "y")],
              tickvals := [1/4, 3/4], ticktext := ["A", "B"] } := by
    with_unfolding_all decide
  refine ⟨hok, ?_⟩
  have h := C2_waffle_category_tiles [("A", 1), ("B", 3)] ["b", "y"]
    "lightblue" "darkblue" 2 _ (by decide) hok
  exact (h.1 1 (by decide)).trans (by decide)

/-! ### Remaining claims (C3 - C10) -/

/-- C3 counterexample: with three categories the waffle colorbar tick
positions are `[1/3, 1, 5/3]` — not the band midpoints `[1/6, 1/2, 5/6]` of
`[0,1]`, and the tick `5/3` does not lie strictly inside `(0,1)`, refuting the
claim as stated. -/
theorem C3_tick_midpoints_counterexample :
    waffle (some [("A", 1), ("B", 1), ("C", 1)]) (some ["r", "g", "b"]) "lightblue" "darkblue"
        (some 3)
      = .ok { z := [[some 2, some 1, some 0]],
              colorscale := [(0, "r"), (1/3, "r"), (1/3, "g"), (2/3, "g"), (2/3, "b"), (1, "b")],
              tickvals := [1/3, 1, 5/3], ticktext := ["A", "B", "C"] }
    ∧ (5/3 : ℚ) ∈ ([1/3, 1, 5/3] : List ℚ)
    ∧ ¬((5/3 : ℚ) < 1)
    ∧ ([1/3, 1, 5/3] : List ℚ) ≠ [1/6, 1/2, 5/6] := by
  refine ⟨by with_unfolding_all decide, by with_unfolding_all decide,
    by with_unfolding_all decide, by with_unfolding_all decide⟩

/-- C3 (amended): for `n ≥ 1` categories the `n` waffle tick positions are
the midpoints `((2j+1)(n-1))/(2n)` of the `n` equal bands of the data range
`[0, n-1]` (not of `[0,1]`); they are strictly increasing, for `n ≥ 2` they
fall strictly inside the open interval `(0, n-1)`, and for `n = 1` the single
tick sits at `0`. -/
theorem C3_tick_midpoints_amended (d : List (String × Nat)) (cs : List String)
    (sc ec : String) (w : ℤ) (fig : WaffleFigure) (hw : 1 ≤ w)
    (hok : waffle (some d) (some cs) sc ec (some w) = .ok fig) :
    fig.tickvals = (List.range d.length).map (fun (j : Nat) =>
        ((2 * (j : ℚ) + 1) * ((d.length : ℚ) - 1)) / (2 * (d.length : ℚ)))
    ∧ List.Chain' (· < ·) fig.tickvals
    ∧ (2 ≤ d.length → ∀ v ∈ fig.tickvals, 0 < v ∧ v < (d.length : ℚ) - 1)
    ∧ (d.length = 1 → fig.tickvals = [0]) := by
  obtain ⟨hd, hcs, hfig⟩ := waffle_ok_inv d cs sc ec w fig hw hok
  subst hfig
  have htv : (waffleFigure d cs w).tickvals = find_midpoints ((d.length : ℤ) - 1) d.length := rfl
  have heq : (waffleFigure d cs w).tickvals = (List.range d.length).map (fun (j : Nat) =>
      ((2 * (j : ℚ) + 1) * ((d.length : ℚ) - 1)) / (2 * (d.length : ℚ))) := by
    rw [htv, find_midpoints]
    refine List.map_congr_left ?_
    intro j _
    push_cast
    ring_nf
  refine ⟨heq, ?_, ?_, ?_⟩
  · rw [heq]
    apply List.Pairwise.chain'
    rw [List.pairwise_map]
    refine (List.pairwise_lt_range d.length).imp_of_mem ?_
    intro a b ha hb hab
    rw [List.mem_range] at ha hb
    have hq2 : (2 : ℚ) ≤ (d.length : ℚ) := by exact_mod_cast by omega
    have hd1 : (0 : ℚ) < (d.length : ℚ) - 1 := by linarith
    have hd2 : (0 : ℚ) < 2 * (d.length : ℚ) := by linarith
    rw [div_lt_div_iff hd2 hd2]
    have habq : (a : ℚ) < (b : ℚ) := by exact_mod_cast hab
    have key : (0 : ℚ) < (2 * (b : ℚ) - 2 * (a : ℚ)) * ((d.length : ℚ) - 1)
        * (2 * (d.length : ℚ)) :=
      mul_pos (mul_pos (by linarith) hd1) hd2
    nlinarith [key]
  · intro hn2 v hv
    rw [heq] at hv
    obtain ⟨j, hj, rfl⟩ := List.mem_map.mp hv
    rw [List.mem_range] at hj
    have hq2 : (2 : ℚ) ≤ (d.length : ℚ) := by exact_mod_cast hn2
    have hd1 : (0 : ℚ) < (d.length : ℚ) - 1 := by linarith
    have hd2 : (0 : ℚ) < 2 * (d.length : ℚ) := by linarith
    have hjq : ((j : ℚ) + 1) ≤ (d.length : ℚ) := by
      exact_mod_cast Nat.succ_le_of_lt hj
    have hj0 : (0 : ℚ) ≤ (j : ℚ) := by positivity
    constructor
    · apply div_pos ?_ hd2
      nlinarith
    · rw [div_lt_iff hd2]
      nlinarith
  · intro h1
    rw [htv, h1]
    with_unfolding_all decide

/-- C4 counterexample: `waffle` with valid counts and `gridWidth = 0` — a
value `≤ 0` that the claim says must raise an invalid-input error at entry —
succeeds. -/
theorem C4_entry_validation_counterexample :
    (waffle (some [("X", 5)]) (some ["red"]) "lightblue" "darkblue" (some 0)).isOk = true := by
  with_unfolding_all decide

/-- C4 (amended): `waffle`'s only entry validation is the presence of a data
source: with no data it raises the provide-data `ValueError`.  Empty counts
and a zero total with the default width are not rejected at entry but fail
later with `ZeroDivisionError` during layout / color-scale computation;
`gridWidth = 0` is falsy and treated exactly as unsupplied (the call
succeeds with the default width); a negative `gridWidth` fails only at the
reshape step with a `ValueError`. -/
theorem C4_entry_validation_amended :
    (∀ (lc : Option (List String)) (sc ec : String) (gw : Option ℤ),
      waffle none lc sc ec gw
        = .error (.valueError "Provide either a DataFrame or a data dictionary."))
    ∧ waffle (some []) (some ["r"]) "lightblue" "darkblue" (some 3) = .error .zeroDivisionError
    ∧ waffle (some [("X", 0)]) (some ["r"]) "lightblue" "darkblue" none
        = .error .zeroDivisionError
    ∧ waffle (some [("X", 5)]) (some ["r"]) "lightblue" "darkblue" (some 0)
        = waffle (some [("X", 5)]) (some ["r"]) "lightblue" "darkblue" none
    ∧ (waffle (some [("X", 5)]) (some ["r"]) "lightblue" "darkblue" (some 0)).isOk = true
    ∧ waffle (some [("X", 5)]) (some ["r"]) "lightblue" "darkblue" (some (-3))
        = .error (.valueError "can only specify one unknown dimension") := by
  refine ⟨fun lc sc ec gw => rfl, by with_unfolding_all decide, by with_unfolding_all decide,
    by with_unfolding_all decide, by with_unfolding_all decide, by with_unfolding_all decide⟩

/-- C6 counterexample: `waffle` with `counts = {"X": 5}`, `gridWidth = 3`
and no caller-supplied colors does not succeed — the default color gradient
for one category raises `ZeroDivisionError`. -/
theorem C6_single_category_counterexample :
    waffle (some [("X", 5)]) none "lightblue" "darkblue" (some 3)
      = .error .zeroDivisionError := by
  with_unfolding_all decide

/-- C6 (amended): with `counts = {"X": 5}`, `gridWidth = 3` and a
caller-supplied color list, `waffle` succeeds with width 3 and height
`ceil(5/3) = 2`: two rows of three cells, 6 cells in total, exactly 1
padding cell and exactly 5 cells assigned to category `X`. -/
theorem C6_single_category_amended :
    waffle (some [("X", 5)]) (some ["red"]) "lightblue" "darkblue" (some 3)
      = .ok { z := [[some 0, some 0, none], [some 0, some 0, some 0]],
              colorscale := [(0, "red"), (1, "red")],
              tickvals := [0], ticktext := ["X"] }
    ∧ ([[some 0, some 0, none], [some 0, some 0, some 0]] : List (List (Option Nat))).map
        List.length = [3, 3]
    ∧ ([[some 0, some 0, none], [some 0, some 0, some 0]] : List (List (Option Nat))).flatten.length
        = 6
    ∧ ([[some 0, some 0, none], [some 0, some 0, some 0]] : List (List (Option Nat))).flatten.count
        none = 1
    ∧ ([[some 0, some 0, none], [some 0, some 0, some 0]] : List (List (Option Nat))).flatten.count
        (some 0) = 5 := by
  refine ⟨by with_unfolding_all decide, by decide, by decide, by decide, by decide⟩

/-- C7 counterexample: the first `dumbbell` definition (lines 269-336,
truncated by the start of the second module paste at line 337) is not
behaviorally identical to the final one — on valid input it returns `None`
where the final definition returns a figure. -/
theorem C7_duplicate_defs_counterexample :
    dumbbell_first (some ["P", "Q"]) (some [1, 2]) (some [3, 1]) none none "h" "blue" "orange"
        "gray"
      ≠ dumbbell (some ["P", "Q"]) (some [1, 2]) (some [3, 1]) none none "h" "blue" "orange"
        "gray" := by
  with_unfolding_all decide

/-- C7 (amended): every duplicated helper except `dumbbell` has an earlier
definition extensionally identical to the later one that shadows it
(`get_color_gradient`, `get_section_bounds`, `find_midpoints`, `waterfall`,
`waffle`, `line_range`, `lollipop_chart`); the earlier `dumbbell` is a
truncated prefix which agrees with the final definition on every raised
error but returns `None` instead of the figure.  All earlier definitions are
dead: the later definition of the same name shadows each at import time. -/
theorem C7_duplicate_defs_amended :
    (∀ a b n, get_color_gradient_first a b n = get_color_gradient a b n)
    ∧ (∀ x y, get_section_bounds_first x y = get_section_bounds x y)
    ∧ (∀ x y, find_midpoints_first x y = find_midpoints x y)
    ∧ (∀ ls ds t an ic dc tc cc col m,
        waterfall_first ls ds t an ic dc tc cc col m = waterfall ls ds t an ic dc tc cc col m)
    ∧ (∀ da lc sc ec gw, waffle_first da lc sc ec gw = waffle da lc sc ec gw)
    ∧ (∀ c v1 v2 o lcol, line_range_first c v1 v2 o lcol = line_range c v1 v2 o lcol)
    ∧ (∀ c v st mc, lollipop_chart_first c v st mc = lollipop_chart c v st mc)
    ∧ (∀ c v1 v2 l1 l2 o m1 m2 lc,
        dumbbell_first c v1 v2 l1 l2 o m1 m2 lc
          = Except.map (fun _ => (none : Option DumbbellFigure))
              (dumbbell c v1 v2 l1 l2 o m1 m2 lc)) := by
  refine ⟨?_, ?_, ?_, ?_, ?_, ?_, ?_, ?_⟩ <;> try (intros; rfl)
  intro c v1 v2 l1 l2 o m1 m2 lc
  rcases c with _ | c <;> rcases v1 with _ | v1 <;> rcases v2 with _ | v2 <;>
    try rfl
  simp only [dumbbell, dumbbell_first, Except.map]
  split
  · rfl
  · split
    · rfl
    · rfl

/-- C8: `waterfall` with `measure` omitted for `n` non-empty category labels
uses the measure list `['relative'] * (n - 1) + ['total']`. -/
theorem C8_waterfall_measure_default (ls : List String) (ds : List ℚ) (title : String)
    ( annot2 : Option (List String)) (ic dc tc cc : String) (col : Option String)
    (hls : ls ≠ []) (hds : ds ≠ []) :
    (waterfall (some ls) (some ds) title annot2 ic dc tc cc col none).map
        WaterfallFigure.measure
      = .ok (List.replicate (ls.length - 1) "relative" ++ ["total"]) := by
  have h1 : ¬(ls = [] ∨ ds = []) := by
    push_neg
    exact ⟨hls, hds⟩
  simp [waterfall, h1, Except.map]

/-- Witness for C8 at three labels. -/
theorem C8_waterfall_measure_default_witness :
    (waterfall (some ["a", "b", "c"]) (some [1, 2, 3]) "" none "Green" "Red" "Blue" "Dark Grey"
        none none).map WaterfallFigure.measure
      = .ok ["relative", "relative", "total"] := by
  have h := C8_waterfall_measure_default ["a", "b", "c"] [1, 2, 3] "" none "Green" "Red" "Blue"
    "Dark Grey" none (by decide) (by decide)
  exact h.trans (by decide)

/-- C9 (amended): `dumbbell` on explicit non-empty lists raises the
length-mismatch `ValueError` if and only if the three lists do not all have
the same length; the concrete `["P","Q"] / [1,2] / [3,1]` horizontal example
succeeds with P's markers at x=1 and x=3 and Q's at x=2 and x=1, and
`values2 = [3]` raises the length-mismatch error.  When a list is absent or
empty, the provide-data error is raised instead (see the counterexample). -/
theorem C9_dumbbell_length_validation_amended :
    (∀ (c : List String) (v1 v2 : List ℚ) (l1 l2 : Option String) (o m1 m2 lc : String),
      c ≠ [] → v1 ≠ [] → v2 ≠ [] →
      ((dumbbell (some c) (some v1) (some v2) l1 l2 o m1 m2 lc
          = .error (.valueError "All input lists must have the same length."))
        ↔ ¬(c.length = v1.length ∧ v1.length = v2.length)))
    ∧ dumbbell (some ["P", "Q"]) (some [1, 2]) (some [3, 1]) none none "h" "blue" "orange" "gray"
        = .ok (some {
            traces := [
              { x := [Ax.q 1, Ax.q 3], y := [Ax.s "P", Ax.s "P"], mode := "lines",
                color := "gray", name := none, showlegend := false },
              { x := [Ax.q 2, Ax.q 1], y := [Ax.s "Q", Ax.s "Q"], mode := "lines",
                color := "gray", name := none, showlegend := false },
              { x := [Ax.q 1, Ax.q 2], y := [Ax.s "P", Ax.s "Q"], mode := "markers",
                color := "blue", name := none, showlegend := false },
              { x := [Ax.q 3, Ax.q 1], y := [Ax.s "P", Ax.s "Q"], mode := "markers",
                color := "orange", name := none, showlegend := false }],
            xaxis_title := "Value", yaxis_title := "Category" })
    ∧ dumbbell (some ["P", "Q"]) (some [1, 2]) (some [3]) none none "h" "blue" "orange" "gray"
        = .error (.valueError "All input lists must have the same length.") := by
  refine ⟨?_, by with_unfolding_all decide, by with_unfolding_all decide⟩
  intro c v1 v2 l1 l2 o m1 m2 lc hc h1 h2
  have hpres : ¬(c.length = 0 ∨ v1.length = 0 ∨ v2.length = 0) := by
    simp only [List.length_eq_zero]
    push_neg
    exact ⟨hc, h1, h2⟩
  simp only [dumbbell]
  rw [if_neg hpres]
  by_cases hlen : c.length = v1.length ∧ v1.length = v2.length
  · rw [if_neg (not_not_intro hlen)]
    simp [hlen]
  · rw [if_pos hlen]
    simp [hlen]

/-- Witness for the amended C9: one-element `values1` against two-element
`values2` raises the length-mismatch error. -/
theorem C9_dumbbell_length_validation_witness :
    dumbbell (some ["P"]) (some [1]) (some [1, 2]) none none "h" "b" "o" "g"
      = .error (.valueError "All input lists must have the same length.") := by
  exact (C9_dumbbell_length_validation_amended.1 ["P"] [1] [1, 2] none none "h" "b" "o" "g"
    (by decide) (by decide) (by decide)).mpr (by decide)

/-- C9 counterexample: with `values2 = []` the three list lengths are not
all equal, yet the error raised is the provide-data `ValueError`, not the
length-mismatch one — refuting the claimed "if and only if". -/
theorem C9_dumbbell_length_validation_counterexample :
    ¬(["P"].length = ([1] : List ℚ).length ∧ ([1] : List ℚ).length = ([] : List ℚ).length)
    ∧ dumbbell (some ["P"]) (some [1]) (some ([] : List ℚ)) none none "h" "blue" "orange" "gray"
        = .error (.valueError
            "Provide either a DataFrame or all three lists: categories, values1, and values2.")
    ∧ PyError.valueError
          "Provide either a DataFrame or all three lists: categories, values1, and values2."
        ≠ PyError.valueError "All input lists must have the same length." := by
  refine ⟨by decide, by with_unfolding_all decide, by decide⟩

/-- C10: `get_color_gradient` with `num_colors = 1` raises
`ZeroDivisionError` (`t = 0 / (1 - 1)`), so every `waffle` call with exactly
one category and no caller-supplied `local_colors` fails with
`ZeroDivisionError` before any grid layout is computed, whatever the count,
the gridWidth and the gradient endpoint colors. -/
theorem C10_single_category_gradient_division_by_zero :
    get_color_gradient "lightblue" "darkblue" 1 = .error .zeroDivisionError
    ∧ ∀ (k : String) (c : Nat) (sc ec : String) (gw : Option ℤ),
        waffle (some [(k, c)]) none sc ec gw = .error .zeroDivisionError := by
  exact ⟨rfl, fun k c sc ec gw => rfl⟩

theorem sectionList_getD (x : ℚ) (y i : Nat) (h : i < y) :
    (sectionList x y).getD i (0, 0)
      = ((i : ℚ) * (x / (y : ℚ)), ((i : ℚ) + 1) * (x / (y : ℚ))) := by
  have hlt : i < (sectionList x y).length := by simpa [sectionList] using h
  rw [List.getD_eq_getElem _ _ hlt]
  simp [sectionList]

theorem chain_adjacent_sections (n : Nat) :
    ∀ (m k : Nat), List.Chain' (· ≤ ·)
      (((List.range' k m).map (fun (i : Nat) =>
        [(i : ℚ) / (n : ℚ), ((i : ℚ) + 1) / (n : ℚ)])).flatten) := by
  intro m
  induction m with
  | zero => intro k; simp
  | succ m ih =>
    intro k
    rw [List.range'_succ, List.map_cons, List.flatten_cons]
    apply List.Chain'.append
    · rw [List.chain'_pair]
      rcases Nat.eq_zero_or_pos n with h0 | hpos
      · subst h0
        simp
      · have hn : (0 : ℚ) < (n : ℚ) := by exact_mod_cast hpos
        rw [div_le_div_iff hn hn]
        nlinarith
    · exact ih (k + 1)
    · intro a ha b hb
      cases m with
      | zero => simp at hb
      | succ m2 =>
        rw [List.range'_succ, List.map_cons, List.flatten_cons] at hb
        simp only [List.getLast?_cons_cons, List.getLast?_singleton, Option.mem_def,
          Option.some.injEq] at ha
        simp only [List.cons_append, List.head?_cons, Option.mem_def, Option.some.injEq] at hb
        subst ha
        subst hb
        push_cast
        exact le_rfl

/-- C5 counterexample: a supplied color list whose length (0) differs from
the number of categories (1) is not reused cyclically without error — the
modulo `i % len(local_colors)` raises `ZeroDivisionError`. -/
theorem C5_colorscale_counterexample :
    waffle (some [("X", 1)]) (some []) "lightblue" "darkblue" (some 1)
      = .error .zeroDivisionError := by
  with_unfolding_all decide

/-- C5 (amended): on every successful waffle call with a supplied
(necessarily non-empty) color list `cs`, the colorscale has exactly `2n`
breakpoints, two per band `i` at positions `i/n` and `(i+1)/n` sharing the
color `cs[i % |cs|]` (cyclic reuse when `|cs| ≠ n`), and the breakpoint
positions are monotonically non-decreasing; an empty supplied list instead
raises `ZeroDivisionError` (see the counterexample). -/
theorem C5_colorscale_amended (d : List (String × Nat)) (cs : List String)
    (sc ec : String) (w : ℤ) (fig : WaffleFigure) (hw : 1 ≤ w)
    (hok : waffle (some d) (some cs) sc ec (some w) = .ok fig) :
    fig.colorscale.length = 2 * d.length
    ∧ fig.colorscale = ((List.range d.length).map (fun (i : Nat) =>
        [((i : ℚ) / (d.length : ℚ), cs.getD (i % cs.length) ""),
         (((i : ℚ) + 1) / (d.length : ℚ), cs.getD (i % cs.length) "")])).flatten
    ∧ List.Chain' (· ≤ ·) (fig.colorscale.map Prod.fst) := by
  obtain ⟨hd, hcs, hfig⟩ := waffle_ok_inv d cs sc ec w fig hw hok
  subst hfig
  have hcsc : (waffleFigure d cs w).colorscale = ((List.range d.length).map (fun (i : Nat) =>
      [((i : ℚ) / (d.length : ℚ), cs.getD (i % cs.length) ""),
       (((i : ℚ) + 1) / (d.length : ℚ), cs.getD (i % cs.length) "")])).flatten := by
    show (((List.range d.length).map _).flatten) = _
    congr 1
    refine List.map_congr_left ?_
    intro i hi
    rw [List.mem_range] at hi
    rw [sectionList_getD 1 d.length i hi]
    rw [mul_one_div, mul_one_div]
  refine ⟨?_, hcsc, ?_⟩
  · rw [hcsc, List.length_flatten, List.map_map]
    have h2 : (List.length ∘ fun (i : Nat) =>
        [((i : ℚ) / (d.length : ℚ), cs.getD (i % cs.length) ""),
         (((i : ℚ) + 1) / (d.length : ℚ), cs.getD (i % cs.length) "")])
        = fun (_ : Nat) => 2 := rfl
    rw [h2, List.map_const', List.sum_replicate, smul_eq_mul, List.length_range, mul_comm]
  · rw [hcsc, List.map_flatten, List.map_map]
    have h3 : (List.map Prod.fst ∘ fun (i : Nat) =>
        [((i : ℚ) / (d.length : ℚ), cs.getD (i % cs.length) ""),
         (((i : ℚ) + 1) / (d.length : ℚ), cs.getD (i % cs.length) "")])
        = fun (i : Nat) => [(i : ℚ) / (d.length : ℚ), ((i : ℚ) + 1) / (d.length : ℚ)] := rfl
    rw [h3, List.range_eq_range' d.length]
    exact chain_adjacent_sections d.length d.length 0

/-- Witness for the amended C5 at three categories with a two-color list. -/
theorem C5_colorscale_amended_witness :
    waffle (some [("A", 1), ("B", 1), ("C", 1)]) (some ["r", "g"]) "lightblue" "darkblue" (some 3)
      = .ok { z := [[some 2, some 1, some 0]],
              colorscale := [(0, "r"), (1/3, "r"), (1/3, "g"), (2/3, "g"), (2/3, "r"), (1, "r")],
              tickvals := [1/3, 1, 5/3], ticktext := ["A", "B", "C"] }
    ∧ ([(0, "r"), (1/3, "r"), (1/3, "g"), (2/3, "g"), (2/3, "r"), (1, "r")] :
        List (ℚ × String)).length = 2 * 3 := by
  have hok : waffle (some [("A", 1), ("B", 1), ("C", 1)]) (some ["r", "g"]) "lightblue"
      "darkblue" (some 3)
      = .ok { z := [[some 2, some 1, some 0]],
              colorscale := [(0, "r"), (1/3, "r"), (1/3, "g"), (2/3, "g"), (2/3, "r"), (1, "r")],
              tickvals := [1/3, 1, 5/3], ticktext := ["A", "B", "C"] } := by
    with_unfolding_all decide
  refine ⟨hok, ?_⟩
  have h := C5_colorscale_amended [("A", 1), ("B", 1), ("C", 1)] ["r", "g"]
    "lightblue" "darkblue" 3 _ (by decide) hok
  exact h.1

/-- Witness for the amended C3 at `counts = {"A": 1, "B": 2}`, `w = 3`. -/
theorem C3_tick_midpoints_amended_witness :
    waffle (some [("A", 1), ("B", 2)]) (some ["r", "g"]) "lightblue" "darkblue" (some 3)
      = .ok { z := [[some 1, some 1, some 0]],
              colorscale := [(0, "r"), (1/2, "r"), (1/2, "g"), (1, "g")],
              tickvals := [1/4, 3/4], ticktext := ["A", "B"] }
    ∧ List.Chain' (· < ·) ([1/4, 3/4] : List ℚ) := by
  have hok : waffle (some [("A", 1), ("B", 2)]) (some ["r", "g"]) "lightblue" "darkblue" (some 3)
      = .ok { z := [[some 1, some 1, some 0]],
              colorscale := [(0, "r"), (1/2, "r"), (1/2, "g"), (1, "g")],
              tickvals := [1/4, 3/4], ticktext := ["A", "B"] } := by
    with_unfolding_all decide
  refine ⟨hok, ?_⟩
  have h := C3_tick_midpoints_amended [("A", 1), ("B", 2)] ["r", "g"]
    "lightblue" "darkblue" 3 _ (by decide) hok
  exact h.2.1
